import Mathlib

/-!
Shallow embedding of the polls application (src/polls/views.py together with
the data model exercised by src/polls/tests.py).

Timestamps are integers (seconds); the store is the persisted database state:
a list of question rows and a list of choice rows.  Each request handler is a
function from the store (plus the current time and the request arguments) to
the resulting store and an HTTP response; since the handlers in
src/polls/views.py never write to the database, each returns its input store
unchanged.  The templates polls/index.html and polls/detail.html and the file
polls/models.py are not under src, so those pieces are modelled from the
specification, as flagged in their doc comments.
-/

/-- A question row: identifier, prompt text and publication timestamp. -/
structure Question where
  id : Nat
  question_text : String
  pub_date : Int
  deriving DecidableEq, Repr

/-- A choice row: identifier, owning question identifier, label and vote
counter. -/
structure Choice where
  id : Nat
  question : Nat
  choice_text : String
  votes : Nat
  deriving DecidableEq, Repr

/-- The persisted store: all question rows and all choice rows, in insertion
order. -/
structure Store where
  questions : List Question
  choices : List Choice
  deriving DecidableEq, Repr

/-- The responses a handler can produce: a 200 page with a body, a 404
Not-Found signal, or a redirect.  The redirect constructor exists because the
specification expects the vote handler to redirect; the handlers in
src/polls/views.py never build one. -/
inductive HttpResponse where
  | ok (body : String)
  | notFound
  | redirect (location : String)
  deriving DecidableEq, Repr

/-- Whether the pattern occurs as a contiguous sublist. -/
def listContainsSub (l pat : List Char) : Bool :=
  match l with
  | [] => pat.isEmpty
  | _ :: rest => pat.isPrefixOf l || listContainsSub rest pat

/-- Whether the string pat occurs as a substring of s. -/
def strContains (s pat : String) : Bool :=
  listContainsSub s.toList pat.toList

/-- Modelled from the spec: polls/index.html is not under src.  Per the spec,
an empty question list renders the literal message "No polls are available.",
otherwise the question texts are rendered. -/
def render_index (qs : List Question) : String :=
  if qs.isEmpty then "No polls are available."
  else String.intercalate "\n" (qs.map (fun q => q.question_text))

/-- django.shortcuts.get_object_or_404 specialised to Question lookup by
primary key, as called in src/polls/views.py: the first question row with the
given id, or none (which the caller turns into a 404). -/
def get_object_or_404 (store : Store) (pk : Nat) : Option Question :=
  store.questions.find? (fun q => q.id == pk)

/-- Modelled from the spec: polls/detail.html is not under src.  Per the spec
it renders the question text plus the labels of its choices. -/
def render_detail (store : Store) (q : Question) : String :=
  q.question_text ++ "\n" ++
    String.intercalate "\n"
      ((store.choices.filter (fun c => c.question == q.id)).map
        (fun c => c.choice_text))

/-- The index view from src/polls/views.py: it loads Question.objects.all()
with no filter and no ordering clause, binds the result to the context key
lastest_question_list and renders the index template.  The current time is
never consulted.  The middle component is the context list handed to the
template. -/
def index (store : Store) (_now : Int) : Store × List Question × HttpResponse :=
  let lastest_question_list := store.questions
  (store, lastest_question_list,
    HttpResponse.ok (render_index lastest_question_list))

/-- The detail view from src/polls/views.py: get_object_or_404 by primary key,
then render the detail template.  The publication timestamp is never
consulted. -/
def detail (store : Store) (_now : Int) (question_id : Nat) :
    Store × HttpResponse :=
  match get_object_or_404 store question_id with
  | some question => (store, HttpResponse.ok (render_detail store question))
  | none => (store, HttpResponse.notFound)

/-- The results view from src/polls/views.py: it returns a fixed 200 page
interpolating only question_id; the store and the current time are never
consulted. -/
def results (store : Store) (_now : Int) (question_id : Nat) :
    Store × HttpResponse :=
  (store, HttpResponse.ok
    ("Estas viendo los resultados de la pregunta número " ++
      toString question_id ++ "."))

/-- The vote view from src/polls/views.py: it returns a fixed 200 page
interpolating only question_id; the store, the current time and the submitted
choice are never consulted and nothing is written. -/
def vote (store : Store) (_now : Int) (question_id : Nat)
    (_choice : Option Nat) : Store × HttpResponse :=
  (store, HttpResponse.ok
    ("Estas votando en la pregunta número " ++ toString question_id ++ "."))

/-- Modelled from the spec: polls/models.py is not under src (only
src/polls/tests.py calls this method).  Per the spec, "published recently"
means the publication timestamp is within the last 24 hours (86400 seconds)
and not in the future. -/
def was_published_recently (now pub_date : Int) : Bool :=
  decide (now - 86400 ≤ pub_date) && decide (pub_date ≤ now)

/-- The concrete future-dated question used against claim C1. -/
def c1_future_question : Question :=
  { id := 1, question_text := "Future question.", pub_date := 101 }

/-- The concrete store used against claim C1. -/
def c1_store : Store := { questions := [c1_future_question], choices := [] }

/-- The concrete store used against claim C2. -/
def c2_store : Store :=
  { questions := [⟨1, "Future question.", 101⟩], choices := [] }

/-- The concrete store used against claim C3: one published question with one
valid choice holding zero votes. -/
def c3_store : Store :=
  { questions := [⟨1, "Past Question.", -5⟩],
    choices := [⟨1, 1, "Choice 1", 0⟩] }

/-- The concrete (empty) store used against claim C4. -/
def c4_store : Store := { questions := [], choices := [] }

/-- The concrete store used against claim C6, mirroring the fixture of
QuestionResultViewTests.test_display_question_choices_and_votes. -/
def c6_store : Store :=
  { questions := [⟨1, "Past Question.", -5⟩],
    choices :=
      [ ⟨1, 1, "Choice 1", 1⟩, ⟨2, 1, "Choice 2", 2⟩,
        ⟨3, 1, "Choice 3", 3⟩ ] }

/-- The concrete store used against claim C7: only a future-dated question. -/
def c7_store : Store :=
  { questions := [⟨1, "Future question.", 101⟩], choices := [] }

/-- The concrete (empty) store used against claim C8. -/
def c8_store : Store := { questions := [], choices := [] }

/-- Claim C1: the listing should return exactly the questions whose
publication timestamp is at or before now, ordered most-recent-first.
Counter-evidence on the code: at current time 100, a store holding one
question with publication timestamp 101 (strictly in the future) is returned
whole by index, so the listing is not restricted to timestamps at or before
now. -/
theorem c1_index_returns_future_question :
    (index c1_store 100).2.1 = [c1_future_question] ∧
    100 < c1_future_question.pub_date := by
  exact ⟨rfl, by decide⟩

/-- Claim C2: detail should answer Not-Found for a question whose publication
timestamp is strictly in the future.  Counter-evidence on the code: at current
time 100, every question of the store has timestamp 101 > 100, yet detail of
id 1 is a 200 page, not Not-Found. -/
theorem c2_detail_serves_future_question :
    (detail c2_store 100 1).2 ≠ HttpResponse.notFound ∧
    c2_store.questions.all (fun q => decide (100 < q.pub_date)) = true := by
  decide

/-- Claim C3: casting a vote for a valid choice should increment that counter
by one and redirect to the results view.  Counter-evidence on the code: voting
for the valid choice 1 of question 1 returns the store unchanged (so no
counter moves) and produces a plain 200 acknowledgement page, not a
redirect. -/
theorem c3_vote_is_a_stub :
    (vote c3_store 0 1 (some 1)).1 = c3_store ∧
    (vote c3_store 0 1 (some 1)).2 =
      HttpResponse.ok "Estas votando en la pregunta número 1." := by
  exact ⟨rfl, rfl⟩

/-- Claim C4: results should answer Not-Found for an unknown identifier.
Counter-evidence on the code: on the empty store, identifier 7 matches no
question, yet the results view is a 200 page, never Not-Found. -/
theorem c4_results_unknown_id_not_404 :
    (results c4_store 0 7).2 ≠ HttpResponse.notFound ∧
    get_object_or_404 c4_store 7 = none := by
  decide

/-- Claim C5: was_published_recently is true exactly when the publication
timestamp lies within the last 24 hours and not in the future: false for any
strictly future timestamp, false for any timestamp more than 24 hours in the
past, true on the whole closed window. -/
theorem c5_was_published_recently_characterisation (now pub : Int) :
    (was_published_recently now pub = true ↔
      now - 86400 ≤ pub ∧ pub ≤ now) ∧
    (now < pub → was_published_recently now pub = false) ∧
    (pub < now - 86400 → was_published_recently now pub = false) := by
  refine ⟨?_, ?_, ?_⟩ <;> simp [was_published_recently] <;> omega

/-- Witness for claim C5 at concrete inputs: one second in the future is not
recent, 100000 seconds before time 100000 (more than a day) is not recent, and
one second in the past is recent. -/
theorem c5_was_published_recently_witness :
    was_published_recently 100000 100001 = false ∧
    was_published_recently 100000 1 = false ∧
    was_published_recently 100000 99999 = true :=
  ⟨(c5_was_published_recently_characterisation 100000 100001).2.1 (by decide),
   (c5_was_published_recently_characterisation 100000 1).2.2 (by decide),
   (c5_was_published_recently_characterisation 100000 99999).1.mpr
     (by constructor <;> decide)⟩

/-- Claim C6: for a past question with three choices holding votes 1, 2 and 3,
the results page should contain "Choice 1: 1 vote", "Choice 2: 2 votes" and
"Choice 3: 3 votes".  Counter-evidence on the code: on exactly that store the
results body is a fixed acknowledgement string that contains none of the three
lines. -/
theorem c6_results_lack_vote_lines :
    (results c6_store 0 1).2 =
      HttpResponse.ok "Estas viendo los resultados de la pregunta número 1." ∧
    strContains "Estas viendo los resultados de la pregunta número 1."
      "Choice 1: 1 vote" = false ∧
    strContains "Estas viendo los resultados de la pregunta número 1."
      "Choice 2: 2 votes" = false ∧
    strContains "Estas viendo los resultados de la pregunta número 1."
      "Choice 3: 3 votes" = false := by
  exact ⟨rfl, by decide, by decide, by decide⟩

/-- Claim C7: when no question has publication timestamp at or before now, the
listing page should contain "No polls are available.".  Counter-evidence on
the code: at current time 100 the store holds only a question with timestamp
101, so the eligible set is empty, yet index hands the future question to the
template, whose rendering is its text and does not contain the message. -/
theorem c7_no_message_despite_empty_eligible_set :
    c7_store.questions.filter (fun q => decide (q.pub_date ≤ 100)) = [] ∧
    (index c7_store 100).2.2 = HttpResponse.ok "Future question." ∧
    strContains "Future question." "No polls are available." = false := by
  exact ⟨by decide, rfl, by decide⟩

/-- Claim C8: a vote naming an unknown question should fail with Not-Found.
Counter-evidence on the code: on the empty store, identifier 9 matches no
question, yet vote with no selected choice is a 200 acknowledgement page,
never Not-Found (the store is indeed left unchanged). -/
theorem c8_vote_unknown_question_not_404 :
    (vote c8_store 0 9 none).2 ≠ HttpResponse.notFound ∧
    get_object_or_404 c8_store 9 = none ∧
    (vote c8_store 0 9 none).1 = c8_store := by
  decide

/-- Claim C9: every handler is read-only: for every store, current time,
question identifier and choice selection, the store after index, detail,
results and vote equals the store before. -/
theorem c9_handlers_preserve_store (s : Store) (now : Int) (qid : Nat)
    (c : Option Nat) :
    (index s now).1 = s ∧ (detail s now qid).1 = s ∧
    (results s now qid).1 = s ∧ (vote s now qid c).1 = s := by
  refine ⟨rfl, ?_, rfl, rfl⟩
  unfold detail
  cases get_object_or_404 s qid <;> rfl

/-- Claim C10: the results and vote responses depend only on question_id: any
two stores, times and choice selections with the same question_id give
identical responses, and neither response is ever Not-Found. -/
theorem c10_results_vote_depend_only_on_id (s t : Store) (n m : Int)
    (qid : Nat) (c d : Option Nat) :
    (results s n qid).2 = (results t m qid).2 ∧
    (vote s n qid c).2 = (vote t m qid d).2 ∧
    (results s n qid).2 ≠ HttpResponse.notFound ∧
    (vote s n qid c).2 ≠ HttpResponse.notFound := by
  refine ⟨rfl, rfl, fun h => ?_, fun h => ?_⟩ <;>
    exact HttpResponse.noConfusion h
